import Mathlib

/-!
Verification development for the query-plan optimizer in
`graphene_django_plus_optimizer/query.py`.

The Python source builds, per resolved GraphQL field, a mutable
`QueryOptimizerStore` (join paths, batched loads, annotation expressions,
column projection) and finally applies it to a lazy Django queryset.
Here the store, the queryset transformations and the per-field
classification logic are embedded as pure Lean functions, translated
clause by clause from the source.  Python truthiness (`if some_list:`,
`if optional_string:`) is made explicit through small helper functions.
-/

namespace GDPO

/-- Separator used by Django lookups (`django.db.models.constants.LOOKUP_SEP`). -/
def LOOKUP_SEP : String := "__"

/-- Python truthiness of `only_list` values (`None` and `[]` are falsy,
a non-empty list is truthy). -/
def truthyOpt : Option (List String) → Bool
  | none => false
  | some l => !l.isEmpty

/-- Python truthiness of an optional string argument (`None` and `""` falsy). -/
def truthyStrOpt : Option String → Bool
  | none => false
  | some s => !(s == "")

/-- `d[k] = v` on an insertion-ordered mapping, as Python dicts behave:
an existing key keeps its position and gets the new value, a new key is
appended at the end. -/
def dictSet {α : Type} (d : List (String × α)) (k : String) (v : α) :
    List (String × α) :=
  if d.any (fun p => p.1 == k) then
    d.map (fun p => if p.1 == k then (k, v) else p)
  else d ++ [(k, v)]

/-- `d.update(src)` on insertion-ordered mappings (Python `dict.update`). -/
def updateDict {α : Type} (d src : List (String × α)) : List (String × α) :=
  src.foldl (fun acc p => dictSet acc p.1 p.2) d

mutual
/-- A lazy Django queryset, recorded as the base model plus the
operations the optimizer has applied to it (`select_related`,
`prefetch_related`, `annotate`, `only`, and the `_gql_optimized`
attribute set by `QueryOptimizerStore.optimize_queryset`). -/
inductive QuerySet : Type where
  | mk (base : String) (sel : List String) (pf : List PFEntry)
      (ann : List (String × String)) (only : Option (List String))
      (opt : Bool) : QuerySet

/-- An entry of a store's `prefetch_list`: either a bare relation path
(a plain string in the source) or a Django `Prefetch(path, queryset)`
object binding an already-optimized related queryset. -/
inductive PFEntry : Type where
  | bare (path : String) : PFEntry
  | bound (path : String) (qs : QuerySet) : PFEntry
end

/-- `related_model.objects.all()`: a fresh queryset with nothing applied. -/
def objectsAll (model : String) : QuerySet := .mk model [] [] [] none false

def QuerySet.base : QuerySet → String
  | .mk b _ _ _ _ _ => b

def QuerySet.sel : QuerySet → List String
  | .mk _ s _ _ _ _ => s

def QuerySet.pf : QuerySet → List PFEntry
  | .mk _ _ p _ _ _ => p

def QuerySet.ann : QuerySet → List (String × String)
  | .mk _ _ _ a _ _ => a

def QuerySet.only : QuerySet → Option (List String)
  | .mk _ _ _ _ o _ => o

def QuerySet.opt : QuerySet → Bool
  | .mk _ _ _ _ _ f => f

/-- `queryset.select_related(*paths)`. -/
def QuerySet.addSelect : QuerySet → List String → QuerySet
  | .mk b s p a o f, xs => .mk b (s ++ xs) p a o f

/-- `queryset.prefetch_related(*entries)`. -/
def QuerySet.addPrefetch : QuerySet → List PFEntry → QuerySet
  | .mk b s p a o f, xs => .mk b s (p ++ xs) a o f

/-- `queryset.annotate(**exprs)`. -/
def QuerySet.addAnnotations : QuerySet → List (String × String) → QuerySet
  | .mk b s p a o f, xs => .mk b s p (updateDict a xs) o f

/-- `queryset.only(*cols)`. -/
def QuerySet.setOnly : QuerySet → List String → QuerySet
  | .mk b s p a _ f, cols => .mk b s p a (some cols) f

/-- `setattr(queryset, '_gql_optimized', flag)`. -/
def QuerySet.setOptimized : QuerySet → Bool → QuerySet
  | .mk b s p a o _, flag => .mk b s p a o flag

/-- The Django model-field metadata the classifier consults
(`model._meta.get_field(name)` results).  `is_many_to_one_rel` models
`isinstance(model_field, ManyToOneRel)` and `remote_field_name` models
`model_field.field.name` for such reverse descriptors;
`is_foreign_key` models `isinstance(model_field, ForeignKey)` and
`attname` models `model_field.get_attname()` (also `model_field.attname`). -/
structure ModelField where
  name : String
  attname : String
  is_foreign_key : Bool
  many_to_one : Bool
  one_to_one : Bool
  one_to_many : Bool
  many_to_many : Bool
  is_relation : Bool
  is_many_to_one_rel : Bool
  remote_field_name : String
  related_model : String
deriving DecidableEq

/-- `QueryOptimizer._is_foreign_key_id(model_field, name)`. -/
def isForeignKeyId (mf : ModelField) (name : String) : Bool :=
  mf.is_foreign_key && !(mf.name == name) && (mf.attname == name)

/-- `QueryOptimizerStore`: the per-subtree plan accumulator.
`only_list = none` is the aborted projection state (`only_list = None`).
`append_only_list` is initialized to `[]` in the source and no operation
ever sets it to `None` (the `is None` guard in `append` is unreachable),
so it is embedded as a plain list. -/
structure Store where
  select_list : List String
  prefetch_list : List PFEntry
  annotate_dict : List (String × String)
  only_list : Option (List String)
  disable_abort_only : Bool
  prefetch_not_applied : List PFEntry
  append_only_list : List String

/-- `QueryOptimizerStore.__init__(disable_abort_only=...)`. -/
def Store.init (disable_abort_only : Bool) : Store :=
  ⟨[], [], [], some [], disable_abort_only, [], []⟩

/-- `QueryOptimizerStore.only(field)`. -/
def Store.only (self : Store) (field : String) : Store :=
  match self.only_list with
  | none => self
  | some l => { self with only_list := some (l ++ [field]) }

/-- `QueryOptimizerStore.append_only(field)`. -/
def Store.append_only (self : Store) (field : String) : Store :=
  { self with append_only_list := self.append_only_list ++ [field] }

/-- `QueryOptimizerStore.abort_only_optimization(field)`: sets the abort
sentinel unless `disable_abort_only` is set (the warning it emits is not
modelled). -/
def Store.abort_only_optimization (self : Store) : Store :=
  if self.disable_abort_only then self else { self with only_list := none }

/-- `QueryOptimizerStore.optimize_queryset(queryset)`. -/
def Store.optimize_queryset (self : Store) (queryset : QuerySet) : QuerySet :=
  let q := if !self.select_list.isEmpty then queryset.addSelect self.select_list
           else queryset
  let q := if !self.prefetch_list.isEmpty then q.addPrefetch self.prefetch_list
           else q
  let q := if !self.annotate_dict.isEmpty then q.addAnnotations self.annotate_dict
           else q
  let q := if truthyOpt self.only_list && !self.append_only_list.isEmpty then
             q.setOnly (self.only_list.getD [] ++ self.append_only_list)
           else if truthyOpt self.only_list then
             q.setOnly (self.only_list.getD [])
           else q
  q.setOptimized (self.only_list ≠ none)

/-- Prefixing a `prefetch_list` entry with a relation name, as the loops
in `select_related`/`prefetch_related` do: `prefetch.add_prefix(name)` for
a `Prefetch` object, `name + LOOKUP_SEP + prefetch` for a bare string. -/
def addPFNamePrefix (name : String) : PFEntry → PFEntry
  | .bare p => .bare (name ++ LOOKUP_SEP ++ p)
  | .bound p qs => .bound (name ++ LOOKUP_SEP ++ p) qs

/-- `QueryOptimizerStore.prefetch_related(name, store, queryset, attname=None, id_field=None)`.
The child `store` is mutated in place in the source (appending `attname` /
`id_field` to its `only_list` before it is applied to the base queryset);
here the mutated child is a local value. -/
def Store.prefetch_related (self : Store) (name : String) (store : Store)
    (queryset : QuerySet) (attname : Option String) (id_field : Option String) :
    Store :=
  if !store.select_list.isEmpty || truthyOpt store.only_list then
    let store :=
      if truthyStrOpt attname && truthyOpt store.only_list then
        { store with only_list := some (store.only_list.getD [] ++ [attname.getD ""]) }
      else store
    let store :=
      if truthyStrOpt id_field && truthyOpt store.only_list
          && !(id_field.getD "" == "pk") then
        { store with only_list := some (store.only_list.getD [] ++ [id_field.getD ""]) }
      else store
    let queryset := store.optimize_queryset queryset
    { self with prefetch_list := self.prefetch_list ++ [.bound name queryset] }
  else if !store.prefetch_list.isEmpty then
    { self with
      prefetch_list := self.prefetch_list ++ store.prefetch_list.map (addPFNamePrefix name) }
  else
    { self with prefetch_list := self.prefetch_list ++ [.bare name] }

/-- `QueryOptimizerStore.select_related(name, store, model_field=None, id_field=None)`.
When the child store carries annotation expressions the source evaluates
`model_field.attname`; with the default `model_field=None` (as passed by
`QueryOptimizer.handle_inline_fragment`) this raises `AttributeError`,
embedded as `Except.error`. -/
def Store.select_related (self : Store) (name : String) (store : Store)
    (model_field : Option ModelField) (id_field : Option String) :
    Except String Store :=
  if !store.annotate_dict.isEmpty then
    match model_field with
    | none => .error "AttributeError: NoneType object has no attribute attname"
    | some mf =>
      let s := self.append_only mf.attname
      .ok (s.prefetch_related name store (objectsAll mf.related_model) none id_field)
  else
    -- `if store.select_list:` prefix each child join path, else append `name` itself
    let sel2 := self.select_list ++
      (if !store.select_list.isEmpty then
        store.select_list.map (fun sel => name ++ LOOKUP_SEP ++ sel)
       else [name])
    -- the loop over `store.prefetch_list` prefixing each entry
    let pf2 := self.prefetch_list ++ store.prefetch_list.map (addPFNamePrefix name)
    if self.only_list ≠ none then
      match store.only_list with
      | none =>
        -- `self.abort_only_optimization(name)`
        .ok ({ self with select_list := sel2, prefetch_list := pf2 } : Store).abort_only_optimization
      | some cols =>
        -- `if id_field and id_field != "pk"`, then the loop over `store.only_list`
        let only2 := self.only_list.getD [] ++
          (if truthyStrOpt id_field && !(id_field.getD "" == "pk") then
            [name ++ LOOKUP_SEP ++ id_field.getD ""]
           else []) ++ cols.map (fun c => name ++ LOOKUP_SEP ++ c)
        -- `if store.append_only_list:` the loop prefixing each entry
        let ao2 := self.append_only_list ++
          (if !store.append_only_list.isEmpty then
            store.append_only_list.map (fun a => name ++ LOOKUP_SEP ++ a)
           else [])
        .ok { self with select_list := sel2, prefetch_list := pf2,
                        only_list := some only2, append_only_list := ao2 }
    else .ok { self with select_list := sel2, prefetch_list := pf2 }

/-- `QueryOptimizerStore.append(store)`.  The source guards
`append_only_list is None`, but no code path ever sets it to `None`, so
the extend branch is the only reachable one. -/
def Store.append (self store : Store) : Store :=
  let s := { self with
    select_list := self.select_list ++ store.select_list,
    prefetch_list := self.prefetch_list ++ store.prefetch_list,
    annotate_dict := updateDict self.annotate_dict store.annotate_dict,
    prefetch_not_applied := self.prefetch_not_applied ++ store.prefetch_not_applied }
  let s :=
    if s.only_list ≠ none then
      match store.only_list with
      | none => { s with only_list := none }
      | some l => { s with only_list := some (s.only_list.getD [] ++ l) }
    else s
  { s with append_only_list := s.append_only_list ++ store.append_only_list }

/-- A runtime value as the directive evaluator sees it: a boolean
(literal `BooleanValue.value` or a bound variable's value) or `None`
(an unbound variable, `variable_values.get` missing). -/
inductive Val : Type where
  | vbool (b : Bool) : Val
  | vnone : Val
deriving DecidableEq

/-- Python truthiness of a `Val`. -/
def Val.truthy : Val → Bool
  | .vbool b => b
  | .vnone => false

/-- A directive argument value node: a `Variable` reference or a literal. -/
inductive ArgValue : Type where
  | var (name : String) : ArgValue
  | lit (v : Val) : ArgValue
deriving DecidableEq

/-- One entry of `directive.arguments`. -/
structure DirArg where
  name : String
  value : ArgValue
deriving DecidableEq

/-- One entry of `selection.directives`. -/
structure Directive where
  name : String
  arguments : List DirArg
deriving DecidableEq

/-- Resolution of one argument value against `variable_values`
(`variable_values.get(var_name)` yields `None` when the variable is
unbound). -/
def resolveArg (vv : List (String × Val)) : ArgValue → Val
  | .var n => match vv.lookup n with
              | some v => v
              | none => .vnone
  | .lit v => v

/-- The `args` dict built for one directive
(`args[arg.name.value] = value` in a loop). -/
def buildDirArgs (vv : List (String × Val)) (args : List DirArg) :
    List (String × Val) :=
  args.foldl (fun acc a => dictSet acc a.name (resolveArg vv a.value)) []

/-- `args.get('if', default)`. -/
def getIfArg (args : List (String × Val)) (default : Val) : Val :=
  match args.lookup "if" with
  | some v => v
  | none => default

/-- `QueryOptimizer._optimize_field_by_directives`: walks the
selection's directives in order, returning on the first one named
`include` (result `not args.get('if', True)`) or `skip` (result
`args.get('if', False)`); `False` when no such directive occurs.
A truthy result means the field is excluded. -/
def optimizeFieldByDirectives (vv : List (String × Val)) :
    List Directive → Val
  | [] => .vbool false
  | d :: rest =>
    let args := buildDirArgs vv d.arguments
    if d.name == "include" then .vbool (!(getIfArg args (.vbool true)).truthy)
    else if d.name == "skip" then getIfArg args (.vbool false)
    else optimizeFieldByDirectives vv rest

/-- An `optimization_hints` bundle attached to a resolver, with the hint
functions already evaluated at the resolution context and call arguments
(the source calls `hints.select_related(info, *args)` etc. exactly once
per field).  `model_field = some r` models a present `model_field`
function returning `r`; `none` models an absent/falsy one. -/
structure Hints where
  select_related : List String
  prefetch_related : List PFEntry
  apply_prefetch_related : Bool
  annotate : List (String × String)
  only : List String
  ignore : Bool
  model_field : Option String

/-- `QueryOptimizer._get_name_from_resolver(resolver, parent_type)`.
`fallback` stands for the id-resolver / `functools.partial` unwrapping
result reached when no hints bundle is attached or its `model_field`
function is falsy (those unwrapping details are outside every claim). -/
def getNameFromResolver (hints : Option Hints)
    (fallback : Option String × Bool) : Option String × Bool :=
  match hints with
  | some h =>
    match h.model_field with
    | some r => (some r, h.ignore)
    | none => fallback
  | none => fallback

/-- `QueryOptimizer._optimize_field_by_hints(store, selection, field_def, parent_type)`:
merges each hint result into the store via `_add_optimization_hints`
(prefetch hints go to `prefetch_not_applied` when
`apply_prefetch_related` is false; only-hints are merged just when the
projection is not aborted).  The source skips empty results
(`if source:`); appending or dict-updating with an empty collection is
the identity, so that guard is dropped here.  Returns the updated store
and whether hints were present. -/
def optimizeFieldByHints (store : Store) (hints : Option Hints) :
    Store × Bool :=
  match hints with
  | none => (store, false)
  | some h =>
    ({ store with
        select_list := store.select_list ++ h.select_related,
        prefetch_list := store.prefetch_list ++
          (if h.apply_prefetch_related then h.prefetch_related else []),
        prefetch_not_applied := store.prefetch_not_applied ++
          (if h.apply_prefetch_related then [] else h.prefetch_related),
        annotate_dict := updateDict store.annotate_dict h.annotate,
        only_list := match store.only_list with
          | none => none
          | some l => some (l ++ h.only) }, true)

/-- `QueryOptimizer._optimize_field_by_name(store, model, selection, field_def, parent_type)`.
`name_ignore` is the `_get_name_from_resolver` result, `get_field` models
`_get_model_field_from_name(model, ·)`, `field_store` the recursive
`_optimize_gql_selections` walk of the nested selection, and `id_field`
the related graphene type's `_meta.id_field` (when declared). -/
def optimizeFieldByName (store : Store) (name_ignore : Option String × Bool)
    (get_field : String → Option ModelField) (field_store : Store)
    (id_field : Option String) : Except String (Store × Bool) :=
  if !truthyStrOpt name_ignore.1 then .ok (store, false)
  else
    let name := name_ignore.1.getD ""
    if name_ignore.2 then .ok (store, true)
    else
      match get_field name with
      | none => .ok (store, false)
      | some mf =>
        if isForeignKeyId mf name then .ok (store.only name, true)
        else if mf.many_to_one || mf.one_to_one then
          match store.select_related name field_store (some mf) id_field with
          | .error e => .error e
          | .ok s => .ok (s, true)
        else if mf.one_to_many || mf.many_to_many then
          let fs := if mf.is_many_to_one_rel then field_store.only mf.remote_field_name
                    else field_store
          .ok (store.prefetch_related name fs (objectsAll mf.related_model) none none, true)
        else if !mf.is_relation then .ok (store.only name, true)
        else .ok (store, false)

/-- `QueryOptimizer._optimize_field(store, model, selection, field_def, parent_type, name)`:
directive short-circuit, then name-based optimization, then hint-based
optimization; when neither succeeded the subtree projection is aborted. -/
def optimizeField (vv : List (String × Val)) (directives : List Directive)
    (store : Store) (hints : Option Hints)
    (fallback : Option String × Bool) (get_field : String → Option ModelField)
    (field_store : Store) (id_field : Option String) : Except String Store :=
  if (optimizeFieldByDirectives vv directives).truthy then .ok store
  else
    match optimizeFieldByName store (getNameFromResolver hints fallback)
        get_field field_store id_field with
    | .error e => .error e
    | .ok (s1, okName) =>
      let (s2, okHints) := optimizeFieldByHints s1 hints
      if okName || okHints then .ok s2
      else .ok s2.abort_only_optimization

/-- What the plain-field branch of `_optimize_gql_selections` sees of one
possible concrete type at the current position: whether
`possible_type.fields.get(name)` finds a field definition, whether the
graphene type passes the relay connection/edge check, and the type's
underlying model (`getattr(graphene_type._meta, 'model', None)`). -/
structure PossibleType where
  has_field : Bool
  is_relay : Bool
  model : Option String
deriving DecidableEq

/-- The plain-field dispatch loop of `_optimize_gql_selections` for one
selection name: walks `possible_types` in order with the
`optimized_fields_by_model` dict state for that name (`recorded`), and
returns the indices of the possible types delegated to `_optimize_field`.
The inner `if field_model == model` test of the source compares the model
just stored under the name with itself. -/
def dispatchFieldGo : List PossibleType → Nat → Bool → List Nat
  | [], _, _ => []
  | pt :: rest, i, recorded =>
    if !pt.has_field then dispatchFieldGo rest (i + 1) recorded
    else if pt.is_relay then dispatchFieldGo rest (i + 1) recorded
    else
      match pt.model with
      | none => dispatchFieldGo rest (i + 1) recorded
      | some m =>
        if recorded then dispatchFieldGo rest (i + 1) recorded
        else
          let field_model := m
          if field_model == m then i :: dispatchFieldGo rest (i + 1) true
          else dispatchFieldGo rest (i + 1) true

/-- Dispatch of one plain selection name over the position's possible
concrete types, starting with the name unrecorded. -/
def dispatchField (pts : List PossibleType) : List Nat :=
  dispatchFieldGo pts 0 false

/-- Whether a possible type is eligible to trigger `_optimize_field` for
a plain field: it defines the field, is not a relay connection/edge
wrapper, and has an underlying model. -/
def eligiblePT (pt : PossibleType) : Bool :=
  pt.has_field && !pt.is_relay && pt.model.isSome

/-- Reference characterization: the index of the first eligible possible
type, if any, counting from `i`. -/
def firstEligibleIdx : List PossibleType → Nat → Option Nat
  | [], _ => none
  | pt :: rest, i =>
    if eligiblePT pt then some i else firstEligibleIdx rest (i + 1)

/-! ### Small projection lemmas about the queryset operations -/

theorem addSelect_only (q : QuerySet) (xs : List String) :
    (q.addSelect xs).only = q.only := by cases q; rfl

theorem addPrefetch_only (q : QuerySet) (xs : List PFEntry) :
    (q.addPrefetch xs).only = q.only := by cases q; rfl

theorem addAnnotations_only (q : QuerySet) (xs : List (String × String)) :
    (q.addAnnotations xs).only = q.only := by cases q; rfl

theorem setOnly_only (q : QuerySet) (cols : List String) :
    (q.setOnly cols).only = some cols := by cases q; rfl

theorem setOptimized_only (q : QuerySet) (f : Bool) :
    (q.setOptimized f).only = q.only := by cases q; rfl

theorem setOptimized_opt (q : QuerySet) (f : Bool) :
    (q.setOptimized f).opt = f := by cases q; rfl

/-- `prefetch_related` only ever appends a non-empty batch of entries to
the parent's `prefetch_list`; every other parent field is untouched. -/
theorem prefetch_related_shape (p : Store) (name : String) (c : Store)
    (q : QuerySet) (attname id_field : Option String) :
    ∃ es, es ≠ [] ∧
      p.prefetch_related name c q attname id_field =
        { p with prefetch_list := p.prefetch_list ++ es } := by
  unfold Store.prefetch_related
  split
  · exact ⟨_, by simp, rfl⟩
  · split
    · refine ⟨_, ?_, rfl⟩
      simp_all
    · exact ⟨[.bare name], by simp, rfl⟩

theorem abort_select_list (s : Store) :
    s.abort_only_optimization.select_list = s.select_list := by
  unfold Store.abort_only_optimization
  split <;> rfl

theorem abort_prefetch_list (s : Store) :
    s.abort_only_optimization.prefetch_list = s.prefetch_list := by
  unfold Store.abort_only_optimization
  split <;> rfl

/-- The join merge with an annotation-free child always succeeds, adds
the join paths (the prefixed child joins, or the bare relation name)
to `select_list` and the prefixed child batched loads to
`prefetch_list`. -/
theorem select_related_noann_shape (p c : Store) (name : String)
    (mf : Option ModelField) (idf : Option String)
    (hann : c.annotate_dict = []) :
    ∃ s, p.select_related name c mf idf = .ok s ∧
      s.select_list = p.select_list ++
        (if !c.select_list.isEmpty then
          c.select_list.map (fun sel => name ++ LOOKUP_SEP ++ sel)
         else [name]) ∧
      s.prefetch_list = p.prefetch_list ++ c.prefetch_list.map (addPFNamePrefix name) := by
  unfold Store.select_related
  have hA : (!c.annotate_dict.isEmpty) = false := by simp [hann]
  rw [hA]
  simp only [Bool.false_eq_true, if_false]
  by_cases hp : p.only_list ≠ none
  · rw [if_pos hp]
    cases hc : c.only_list with
    | none =>
      refine ⟨_, rfl, ?_, ?_⟩
      · rw [abort_select_list]
      · rw [abort_prefetch_list]
    | some cols => exact ⟨_, rfl, rfl, rfl⟩
  · rw [if_neg hp]
    exact ⟨_, rfl, rfl, rfl⟩

/-! ### Claim theorems -/

/-- C1 as stated is false: the batched-load merge
(`prefetch_related`) does not propagate a child's abort to the parent.
Merging an aborted child (`only_list = None`, nothing else recorded)
into a fresh active parent leaves the parent's projection active. -/
theorem C1_counterexample :
    (((Store.init false).prefetch_related "books"
        { Store.init false with only_list := none }
        (objectsAll "Book") none none).only_list = some []) ∧
    (some ([] : List String) ≠ (none : Option (List String))) :=
  ⟨rfl, by decide⟩

/-- C1 amended: a child's aborted projection propagates to the parent on
the join merge (`select_related`, when the parent's abort is enabled and
the child carries no annotation expressions) and on the direct `append`
merge; the batched-load merge (`prefetch_related`) leaves the parent's
projection unchanged — an aborted child only disables narrowing of the
bound related queryset. -/
theorem C1_amended_abort_propagation (p c : Store) (name : String)
    (mf : Option ModelField) (idf : Option String) (q : QuerySet)
    (attname id_field : Option String)
    (hp : p.disable_abort_only = false) (hpa : p.only_list ≠ none)
    (hc : c.only_list = none) (hann : c.annotate_dict = []) :
    (∃ s, p.select_related name c mf idf = .ok s ∧ s.only_list = none) ∧
    (p.append c).only_list = none ∧
    (p.prefetch_related name c q attname id_field).only_list = p.only_list := by
  refine ⟨?_, ?_, ?_⟩
  · unfold Store.select_related
    have hA : (!c.annotate_dict.isEmpty) = false := by simp [hann]
    rw [hA]
    simp only [Bool.false_eq_true, if_false]
    rw [if_pos hpa, hc]
    refine ⟨_, rfl, ?_⟩
    unfold Store.abort_only_optimization
    simp [hp]
  · unfold Store.append
    rw [hc]
    simp [hpa]
  · obtain ⟨es, -, heq⟩ := prefetch_related_shape p name c q attname id_field
    rw [heq]

/-- C1 witness: the amended theorem applied to a fresh parent and an
aborted child. -/
theorem C1_amended_abort_propagation_witness :
    (∃ s, (Store.init false).select_related "a"
        { Store.init false with only_list := none } none none = .ok s ∧
        s.only_list = none) ∧
    ((Store.init false).append
        { Store.init false with only_list := none }).only_list = none ∧
    ((Store.init false).prefetch_related "a"
        { Store.init false with only_list := none }
        (objectsAll "M") none none).only_list = (Store.init false).only_list :=
  C1_amended_abort_propagation (Store.init false)
    { Store.init false with only_list := none } "a" none none (objectsAll "M")
    none none rfl (by decide) rfl rfl

/-- C2 as stated is false: when a resolver carries hints whose
`model_field` function is absent, `_optimize_field` still runs
name/type inference (`_optimize_field_by_name` is invoked
unconditionally before `_optimize_field_by_hints`), and its
contribution is added alongside the hints'.  Field resolved by the
default resolver to scalar `title` with an only-hint `hintcol`: the
projection receives both `title` (from inference) and `hintcol`, not
exactly the hints' return value. -/
theorem C2_counterexample :
    ((optimizeField [] [] (Store.init false)
        (some ⟨[], [], true, [], ["hintcol"], false, none⟩)
        (some "title", false)
        (fun n => if n == "title"
          then some ⟨"title", "title", false, false, false, false, false,
                     false, false, "", ""⟩
          else none)
        (Store.init false) none).toOption.map Store.only_list
      = some (some ["title", "hintcol"])) ∧
    (((optimizeFieldByHints (Store.init false)
        (some ⟨[], [], true, [], ["hintcol"], false, none⟩)).1).only_list
      = some ["hintcol"]) ∧
    ((some ["title", "hintcol"] : Option (List String)) ≠ some ["hintcol"]) :=
  ⟨rfl, rfl, by decide⟩

/-- C2 amended: the hint contributions are always merged when a hints
bundle is present, and a hint-declared `model_field` mapping returning a
non-empty name together with the static `ignore` flag short-circuits
name/type inference, so the field's contributions are then exactly the
hint functions' return values; without such a mapping, name/type
inference still runs and may contribute in addition to the hints. -/
theorem C2_amended_hint_precedence (vv : List (String × Val))
    (ds : List Directive) (store : Store) (h : Hints)
    (fallback : Option String × Bool) (get_field : String → Option ModelField)
    (fs : Store) (idf : Option String) (r : String)
    (hmf : h.model_field = some r) (hr : r ≠ "") (hig : h.ignore = true)
    (hdir : (optimizeFieldByDirectives vv ds).truthy = false) :
    optimizeField vv ds store (some h) fallback get_field fs idf =
      .ok (optimizeFieldByHints store (some h)).1 := by
  unfold optimizeField
  rw [hdir]
  simp only [Bool.false_eq_true, if_false]
  simp only [getNameFromResolver, hmf]
  unfold optimizeFieldByName
  have ht : truthyStrOpt (some r) = true := by simp [truthyStrOpt, hr]
  simp [ht, hig]

/-- C2 witness: the amended theorem at a concrete ignore-hint. -/
theorem C2_amended_hint_precedence_witness :
    optimizeField [] [] (Store.init false)
        (some ⟨["joined"], [], true, [], ["hintcol"], true, some "mapped"⟩)
        (none, false) (fun _ => none) (Store.init false) none =
      .ok (optimizeFieldByHints (Store.init false)
        (some ⟨["joined"], [], true, [], ["hintcol"], true, some "mapped"⟩)).1 :=
  C2_amended_hint_precedence [] [] (Store.init false)
    ⟨["joined"], [], true, [], ["hintcol"], true, some "mapped"⟩
    (none, false) (fun _ => none) (Store.init false) none "mapped"
    rfl (by decide) rfl rfl

/-- C3 as stated is false: a forward single-valued relation (a
many-to-one `author` foreign key) with a classifiable nested selection
yields no join when the nested store carries an annotation expression —
`select_related` downgrades it to a batched load (here a bare
`prefetch_list` entry) plus the relation's FK column force-appended. -/
theorem C3_counterexample :
    (optimizeFieldByName (Store.init false) (some "author", false)
        (fun n => if n == "author"
          then some ⟨"author", "author_id", true, true, false, false, false,
                     true, false, "", "Author"⟩
          else none)
        { Store.init false with annotate_dict := [("cnt", "Count(books)")] }
        none).toOption.map
        (fun sb => (sb.1.select_list, sb.1.prefetch_list, sb.1.append_only_list, sb.2))
      = some ([], [PFEntry.bare "author"], ["author_id"], true) :=
  rfl

/-- C3 amended: a forward single-valued relation with a classifiable
nested selection yields a join unless the nested store carries
annotation expressions, in which case it yields a batched load and no
join; a many-valued relation always yields a batched load and never a
join. -/
theorem C3_amended_join_vs_batch (store fs : Store) (name : String)
    (mf : ModelField) (get_field : String → Option ModelField)
    (idf : Option String)
    (hname : name ≠ "") (hget : get_field name = some mf)
    (hnotfk : isForeignKeyId mf name = false) :
    ((mf.many_to_one || mf.one_to_one) = true → fs.annotate_dict = [] →
      ∃ s, optimizeFieldByName store (some name, false) get_field fs idf
          = .ok (s, true) ∧
        s.select_list = store.select_list ++
          (if !fs.select_list.isEmpty then
            fs.select_list.map (fun sel => name ++ LOOKUP_SEP ++ sel)
           else [name]) ∧
        s.prefetch_list = store.prefetch_list ++ fs.prefetch_list.map (addPFNamePrefix name)) ∧
    ((mf.many_to_one || mf.one_to_one) = true → fs.annotate_dict ≠ [] →
      ∃ s es, optimizeFieldByName store (some name, false) get_field fs idf
          = .ok (s, true) ∧
        s.select_list = store.select_list ∧ es ≠ [] ∧
        s.prefetch_list = store.prefetch_list ++ es) ∧
    ((mf.many_to_one || mf.one_to_one) = false →
     (mf.one_to_many || mf.many_to_many) = true →
      ∃ s es, optimizeFieldByName store (some name, false) get_field fs idf
          = .ok (s, true) ∧
        s.select_list = store.select_list ∧ es ≠ [] ∧
        s.prefetch_list = store.prefetch_list ++ es) := by
  have ht : truthyStrOpt (some name) = true := by simp [truthyStrOpt, hname]
  refine ⟨?_, ?_, ?_⟩
  · intro hone hann
    obtain ⟨s, heq, h1, h2⟩ := select_related_noann_shape store fs name (some mf) idf hann
    refine ⟨s, ?_, h1, h2⟩
    simp [optimizeFieldByName, ht, hget, hnotfk, hone, heq]
  · intro hone hann
    obtain ⟨es, hne, heq⟩ := prefetch_related_shape (store.append_only mf.attname)
      name fs (objectsAll mf.related_model) none idf
    have hA : (!fs.annotate_dict.isEmpty) = true := by
      simp [List.isEmpty_iff, hann]
    refine ⟨{ store.append_only mf.attname with
              prefetch_list := (store.append_only mf.attname).prefetch_list ++ es },
            es, ?_, ?_, hne, ?_⟩
    · simp [optimizeFieldByName, ht, hget, hnotfk, hone, Store.select_related, hA, heq]
    · simp [Store.append_only]
    · simp [Store.append_only]
  · intro hone hmany
    obtain ⟨es, hne, heq⟩ := prefetch_related_shape store name
      (if mf.is_many_to_one_rel then fs.only mf.remote_field_name else fs)
      (objectsAll mf.related_model) none none
    refine ⟨{ store with prefetch_list := store.prefetch_list ++ es }, es, ?_, rfl, hne, rfl⟩
    simp [optimizeFieldByName, ht, hget, hnotfk, hone, hmany, heq]

/-- C3 witness: the amended theorem at a concrete many-to-one field with
an annotation-free nested store (join), the same field with an annotated
nested store (downgraded to batch), and a concrete many-to-many field
(batch). -/
theorem C3_amended_join_vs_batch_witness :
    ((true || false) = true → ([] : List (String × String)) = [] →
      ∃ s, optimizeFieldByName (Store.init false) (some "author", false)
          (fun _ => some ⟨"author", "author_id", true, true, false, false, false,
                          true, false, "", "Author"⟩)
          (Store.init false) none
          = .ok (s, true) ∧
        s.select_list = (Store.init false).select_list ++
          (if !(Store.init false).select_list.isEmpty then
            (Store.init false).select_list.map (fun sel => "author" ++ LOOKUP_SEP ++ sel)
           else ["author"]) ∧
        s.prefetch_list = (Store.init false).prefetch_list ++
          (Store.init false).prefetch_list.map (addPFNamePrefix "author")) ∧
    ((true || false) = true → ([("cnt", "Count(books)")] : List (String × String)) ≠ [] →
      ∃ s es, optimizeFieldByName (Store.init false) (some "author", false)
          (fun _ => some ⟨"author", "author_id", true, true, false, false, false,
                          true, false, "", "Author"⟩)
          { Store.init false with annotate_dict := [("cnt", "Count(books)")] } none
          = .ok (s, true) ∧
        s.select_list = (Store.init false).select_list ∧ es ≠ [] ∧
        s.prefetch_list = (Store.init false).prefetch_list ++ es) ∧
    ((false || false) = false → (false || true) = true →
      ∃ s es, optimizeFieldByName (Store.init false) (some "genres", false)
          (fun _ => some ⟨"genres", "genres", false, false, false, false, true,
                          true, false, "", "Genre"⟩)
          (Store.init false) none
          = .ok (s, true) ∧
        s.select_list = (Store.init false).select_list ∧ es ≠ [] ∧
        s.prefetch_list = (Store.init false).prefetch_list ++ es) := by
  refine ⟨?_, ?_, ?_⟩
  · exact (C3_amended_join_vs_batch (Store.init false) (Store.init false) "author"
      ⟨"author", "author_id", true, true, false, false, false, true, false, "", "Author"⟩
      (fun _ => some ⟨"author", "author_id", true, true, false, false, false,
                      true, false, "", "Author"⟩) none
      (by decide) rfl rfl).1
  · exact (C3_amended_join_vs_batch (Store.init false)
      { Store.init false with annotate_dict := [("cnt", "Count(books)")] } "author"
      ⟨"author", "author_id", true, true, false, false, false, true, false, "", "Author"⟩
      (fun _ => some ⟨"author", "author_id", true, true, false, false, false,
                      true, false, "", "Author"⟩) none
      (by decide) rfl rfl).2.1
  · exact (C3_amended_join_vs_batch (Store.init false) (Store.init false) "genres"
      ⟨"genres", "genres", false, false, false, false, true, true, false, "", "Genre"⟩
      (fun _ => some ⟨"genres", "genres", false, false, false, false, true,
                      true, false, "", "Genre"⟩) none
      (by decide) rfl rfl).2.2

/-- C4: the claim says the optimizer never raises; but
`handle_inline_fragment` merges a walked fragment store via
`store.select_related(select_related_name, fragment_store)` with the
default `model_field=None`, and when that fragment store carries an
annotation expression `select_related` evaluates `model_field.attname`,
raising `AttributeError`.  Evaluating the embedded `select_related` at
that failing input yields the error. -/
theorem C4_inline_fragment_annotation_crash :
    (Store.init false).select_related "subclass"
        { Store.init false with annotate_dict := [("total", "Count(items)")] }
        none none
      = .error "AttributeError: NoneType object has no attribute attname" := rfl

/-- C9 as stated is false: applying an empty, non-aborted store to a base
queryset sets the introspectable `_gql_optimized` flag to `true` although
no column restriction (`only`) is applied to the queryset at all. -/
theorem C9_counterexample :
    ((Store.init false).optimize_queryset (objectsAll "Book")).opt = true ∧
    ((Store.init false).optimize_queryset (objectsAll "Book")).only = none :=
  ⟨rfl, rfl⟩

/-- C9 amended: the `_gql_optimized` flag is true iff the projection was
not aborted (`only_list is not None`); a column restriction is actually
applied iff `only_list` is a non-empty list, in which case the applied
columns are `only_list` (plus `append_only_list` when that is non-empty);
otherwise the queryset's column restriction is left untouched. -/
theorem C9_amended_optimized_flag (s : Store) (q : QuerySet) :
    (s.optimize_queryset q).opt = s.only_list.isSome ∧
    (s.optimize_queryset q).only =
      (if truthyOpt s.only_list then
        some (if s.append_only_list.isEmpty then s.only_list.getD []
              else s.only_list.getD [] ++ s.append_only_list)
       else q.only) := by
  unfold Store.optimize_queryset
  constructor
  · rw [setOptimized_opt]
    cases s.only_list <;> simp
  · rw [setOptimized_only]
    by_cases ht : truthyOpt s.only_list
    · by_cases he : s.append_only_list.isEmpty
      · simp [ht, he, setOnly_only]
      · simp [ht, he, setOnly_only]
    · simp [ht, addSelect_only, addPrefetch_only, addAnnotations_only]
      split <;> split <;> split <;>
        simp [addSelect_only, addPrefetch_only, addAnnotations_only]

/-- C5: the batched-load merge rule with a default base query
(`attname=None`, `id_field=None`, as `_optimize_field_by_name` passes for
a many-valued relation): a child with join paths or a non-empty
projection list yields a bound entry `(name, child applied to the base
query)`; else a child with only further batched loads has each of them
flattened under `name`; else a bare entry `name` is recorded. -/
theorem C5_batched_load_merge (p c : Store) (name : String) (q : QuerySet) :
    ((c.select_list ≠ [] ∨ truthyOpt c.only_list = true) →
      p.prefetch_related name c q none none =
        { p with prefetch_list :=
            p.prefetch_list ++ [.bound name (c.optimize_queryset q)] }) ∧
    (c.select_list = [] → truthyOpt c.only_list = false → c.prefetch_list ≠ [] →
      p.prefetch_related name c q none none =
        { p with prefetch_list :=
            p.prefetch_list ++ c.prefetch_list.map (addPFNamePrefix name) }) ∧
    (c.select_list = [] → truthyOpt c.only_list = false → c.prefetch_list = [] →
      p.prefetch_related name c q none none =
        { p with prefetch_list := p.prefetch_list ++ [.bare name] }) := by
  refine ⟨?_, ?_, ?_⟩
  · intro hcase
    unfold Store.prefetch_related
    have hcond : (!c.select_list.isEmpty || truthyOpt c.only_list) = true := by
      rcases hcase with h | h
      · simp [List.isEmpty_iff, h]
      · simp [h]
    rw [if_pos hcond]
    simp [truthyStrOpt]
  · intro hsel honly hpf
    unfold Store.prefetch_related
    have hcond : (!c.select_list.isEmpty || truthyOpt c.only_list) = false := by
      simp [hsel, honly]
    rw [if_neg (by simp [hcond])]
    rw [if_pos (by simp [List.isEmpty_iff, hpf])]
  · intro hsel honly hpf
    unfold Store.prefetch_related
    have hcond : (!c.select_list.isEmpty || truthyOpt c.only_list) = false := by
      simp [hsel, honly]
    rw [if_neg (by simp [hcond])]
    rw [if_neg (by simp [List.isEmpty_iff, hpf])]

/-- C5 witness: the three merge branches at concrete child stores. -/
theorem C5_batched_load_merge_witness :
    ((Store.init false).prefetch_related "genres"
        { Store.init false with select_list := ["s"] } (objectsAll "Genre") none none =
      { Store.init false with prefetch_list :=
          [.bound "genres" (({ Store.init false with select_list := ["s"] } : Store).optimize_queryset
            (objectsAll "Genre"))] }) ∧
    ((Store.init false).prefetch_related "genres"
        { Store.init false with prefetch_list := [.bare "tags"] } (objectsAll "Genre") none none =
      { Store.init false with prefetch_list := [.bare ("genres" ++ LOOKUP_SEP ++ "tags")] }) ∧
    ((Store.init false).prefetch_related "genres" (Store.init false) (objectsAll "Genre") none none =
      { Store.init false with prefetch_list := [.bare "genres"] }) :=
  ⟨((C5_batched_load_merge (Store.init false) { Store.init false with select_list := ["s"] }
      "genres" (objectsAll "Genre")).1 (Or.inl (by decide))),
   ((C5_batched_load_merge (Store.init false) { Store.init false with prefetch_list := [.bare "tags"] }
      "genres" (objectsAll "Genre")).2.1 rfl rfl (by simp)),
   ((C5_batched_load_merge (Store.init false) (Store.init false)
      "genres" (objectsAll "Genre")).2.2 rfl rfl rfl)⟩

/-- Directives whose name is neither `include` nor `skip` are walked
past without affecting the result. -/
theorem directives_drop_other_names (vv : List (String × Val))
    (pre rest : List Directive)
    (hpre : ∀ p ∈ pre, p.name ≠ "include" ∧ p.name ≠ "skip") :
    optimizeFieldByDirectives vv (pre ++ rest) =
      optimizeFieldByDirectives vv rest := by
  induction pre with
  | nil => rfl
  | cons p ps ih =>
    obtain ⟨h1, h2⟩ := hpre p (List.mem_cons_self p ps)
    have e1 : (p.name == "include") = false := by simp [h1]
    have e2 : (p.name == "skip") = false := by simp [h2]
    simp only [List.cons_append, optimizeFieldByDirectives, e1, e2,
      Bool.false_eq_true, if_false]
    exact ih (fun d hd => hpre d (List.mem_cons_of_mem p hd))

/-- C6 as stated is false: on a selection carrying both
`@include(if: true)` and `@skip(if: true)`, the literal `skip=true`
does not exclude the field — the evaluator returns the verdict of the
first skip/include directive (`include`, verdict: keep), so the field
is included although a skip-true directive is present. -/
theorem C6_counterexample :
    (optimizeFieldByDirectives []
      [⟨"include", [⟨"if", .lit (.vbool true)⟩]⟩,
       ⟨"skip", [⟨"if", .lit (.vbool true)⟩]⟩]).truthy = false ∧
    (⟨"skip", [⟨"if", .lit (.vbool true)⟩]⟩ : Directive) ∈
      [(⟨"include", [⟨"if", .lit (.vbool true)⟩]⟩ : Directive),
       ⟨"skip", [⟨"if", .lit (.vbool true)⟩]⟩] :=
  ⟨rfl, by decide⟩

/-- C6 amended: for the first skip/include directive on a selection
(any earlier directives having other names), with its `if` argument a
literal or resolved from a bound variable to a boolean `b`: a skip
excludes the field iff `b`, an include excludes it iff `not b`; an
absent `if` argument defaults to skip=false / include=true (field
included).  Later skip/include directives on the same selection are
ignored. -/
theorem C6_amended_directive_determinism (vv : List (String × Val))
    (pre rest : List Directive) (av : ArgValue) (b : Bool)
    (hpre : ∀ p ∈ pre, p.name ≠ "include" ∧ p.name ≠ "skip")
    (hav : resolveArg vv av = .vbool b) :
    (optimizeFieldByDirectives vv
      (pre ++ ⟨"skip", [⟨"if", av⟩]⟩ :: rest)).truthy = b ∧
    (optimizeFieldByDirectives vv
      (pre ++ ⟨"include", [⟨"if", av⟩]⟩ :: rest)).truthy = !b ∧
    (optimizeFieldByDirectives vv
      (pre ++ ⟨"skip", []⟩ :: rest)).truthy = false ∧
    (optimizeFieldByDirectives vv
      (pre ++ ⟨"include", []⟩ :: rest)).truthy = false := by
  refine ⟨?_, ?_, ?_, ?_⟩ <;>
    rw [directives_drop_other_names vv pre _ hpre] <;>
    simp [optimizeFieldByDirectives, buildDirArgs, dictSet, getIfArg, hav, Val.truthy]

/-- C6 witness: the amended theorem at a literal argument and at a bound
variable, with a leading unrelated directive. -/
theorem C6_amended_directive_determinism_witness :
    ((optimizeFieldByDirectives [("v", Val.vbool true)]
      ([⟨"cached", []⟩] ++ ⟨"skip", [⟨"if", .var "v"⟩]⟩ :: [])).truthy = true) ∧
    ((optimizeFieldByDirectives [("v", Val.vbool true)]
      ([⟨"cached", []⟩] ++ ⟨"include", [⟨"if", .var "v"⟩]⟩ :: [])).truthy = !true) ∧
    ((optimizeFieldByDirectives [("v", Val.vbool true)]
      ([⟨"cached", []⟩] ++ ⟨"skip", []⟩ :: [])).truthy = false) ∧
    ((optimizeFieldByDirectives [("v", Val.vbool true)]
      ([⟨"cached", []⟩] ++ ⟨"include", []⟩ :: [])).truthy = false) :=
  C6_amended_directive_determinism [("v", Val.vbool true)]
    [⟨"cached", []⟩] [] (.var "v") true
    (by intro p hp; simp at hp; simp [hp]) rfl

/-- C10: only the first skip/include directive in a selection's
directive list decides the outcome: any earlier directives with other
names are skipped without effect, and everything after the first
skip/include directive is ignored entirely. -/
theorem C10_first_directive_decides (vv : List (String × Val))
    (pre : List Directive) (d : Directive) (rest : List Directive)
    (hpre : ∀ p ∈ pre, p.name ≠ "include" ∧ p.name ≠ "skip")
    (hd : d.name = "include" ∨ d.name = "skip") :
    optimizeFieldByDirectives vv (pre ++ d :: rest) =
      optimizeFieldByDirectives vv [d] := by
  rw [directives_drop_other_names vv pre _ hpre]
  rcases hd with h | h <;>
    simp [optimizeFieldByDirectives, h]

/-- C10 witness: a skip-true directive followed by an include-true
directive; the later directive is ignored. -/
theorem C10_first_directive_decides_witness :
    optimizeFieldByDirectives []
      ([⟨"cached", []⟩] ++ (⟨"skip", [⟨"if", .lit (.vbool true)⟩]⟩ : Directive) ::
        [⟨"include", [⟨"if", .lit (.vbool true)⟩]⟩]) =
      optimizeFieldByDirectives [] [⟨"skip", [⟨"if", .lit (.vbool true)⟩]⟩] :=
  C10_first_directive_decides [] [⟨"cached", []⟩]
    ⟨"skip", [⟨"if", .lit (.vbool true)⟩]⟩
    [⟨"include", [⟨"if", .lit (.vbool true)⟩]⟩]
    (by intro p hp; simp at hp; simp [hp]) (Or.inr rfl)

/-- Once the selection name is recorded in `optimized_fields_by_model`,
the rest of the possible-types loop delegates nothing. -/
theorem dispatchFieldGo_recorded (pts : List PossibleType) (i : Nat) :
    dispatchFieldGo pts i true = [] := by
  induction pts generalizing i with
  | nil => rfl
  | cons pt rest ih =>
    unfold dispatchFieldGo
    split
    · exact ih _
    · split
      · exact ih _
      · cases hm : pt.model with
        | none => exact ih _
        | some m => simp [ih]

/-- With the name unrecorded, the dispatch loop delegates exactly the
first eligible possible type, if any. -/
theorem dispatchFieldGo_unrecorded (pts : List PossibleType) (i : Nat) :
    dispatchFieldGo pts i false =
      (match firstEligibleIdx pts i with
       | none => []
       | some j => [j]) := by
  induction pts generalizing i with
  | nil => rfl
  | cons pt rest ih =>
    unfold dispatchFieldGo firstEligibleIdx
    by_cases h1 : pt.has_field
    · by_cases h2 : pt.is_relay
      · simp [h1, h2, eligiblePT, ih]
      · cases hm : pt.model with
        | none => simp [h1, h2, hm, eligiblePT, ih]
        | some m => simp [h1, h2, hm, eligiblePT, dispatchFieldGo_recorded]
    · simp [h1, eligiblePT, ih]

/-- C7 as stated is false: with two concrete types that both define the
field and share the same underlying model `M`, the walker delegates to
`_optimize_field` only for the first of them (index 0); the second is
skipped because the name is already recorded in
`optimized_fields_by_model`, not delegated once per concrete type
sharing the model. -/
theorem C7_counterexample :
    dispatchField [⟨true, false, some "M"⟩, ⟨true, false, some "M"⟩] = [0] ∧
    (dispatchField [⟨true, false, some "M"⟩, ⟨true, false, some "M"⟩]).length ≠ 2 :=
  ⟨rfl, by decide⟩

/-- C7 amended: for each plain selection name, the walker delegates to
per-field optimization exactly once — for the first concrete type that
defines the field, is not a relay connection/edge wrapper, and has an
underlying model; every later concrete type is skipped under that name,
whether or not it shares the same model. -/
theorem C7_amended_dispatch_once_per_name (pts : List PossibleType) :
    dispatchField pts =
      (match firstEligibleIdx pts 0 with
       | none => []
       | some j => [j]) :=
  dispatchFieldGo_unrecorded pts 0

/-- C8: once a store's projection is aborted (`only_list = None`), no
subsequent operation on that store — `only`, `append_only`,
`abort_only_optimization`, `append`, batched-load merge, join merge
(whenever it returns), or hint application — restores an active
projection. -/
theorem C8_abort_irreversible (s c : Store) (f name : String) (q : QuerySet)
    (attname id_field : Option String) (mf : Option ModelField)
    (h : Option Hints) (habort : s.only_list = none) :
    (s.only f).only_list = none ∧
    (s.append_only f).only_list = none ∧
    s.abort_only_optimization.only_list = none ∧
    (s.append c).only_list = none ∧
    (s.prefetch_related name c q attname id_field).only_list = none ∧
    (∀ s2, s.select_related name c mf id_field = .ok s2 → s2.only_list = none) ∧
    ((optimizeFieldByHints s h).1).only_list = none := by
  refine ⟨?_, ?_, ?_, ?_, ?_, ?_, ?_⟩
  · unfold Store.only
    rw [habort]
    exact habort
  · simpa [Store.append_only] using habort
  · unfold Store.abort_only_optimization
    split
    · exact habort
    · rfl
  · unfold Store.append
    simp [habort]
  · obtain ⟨es, -, heq⟩ := prefetch_related_shape s name c q attname id_field
    rw [heq]
    exact habort
  · intro s2 h2
    unfold Store.select_related at h2
    split at h2
    · match mf, h2 with
      | some m, h2 =>
        simp only [Except.ok.injEq] at h2
        obtain ⟨es, -, heq⟩ :=
          prefetch_related_shape (s.append_only m.attname) name c
            (objectsAll m.related_model) none id_field
        rw [heq] at h2
        rw [← h2]
        simpa [Store.append_only] using habort
    · rw [if_neg (not_not_intro habort)] at h2
      simp only [Except.ok.injEq] at h2
      rw [← h2]
      exact habort
  · unfold optimizeFieldByHints
    match h with
    | none => exact habort
    | some hh => simp [habort]

/-- C8 witness: the theorem applied to a concrete aborted store. -/
theorem C8_abort_irreversible_witness :
    (({ Store.init false with only_list := none } : Store).only "f").only_list = none ∧
    (({ Store.init false with only_list := none } : Store).append_only "f").only_list = none ∧
    ({ Store.init false with only_list := none } : Store).abort_only_optimization.only_list = none ∧
    (({ Store.init false with only_list := none } : Store).append (Store.init false)).only_list = none ∧
    (({ Store.init false with only_list := none } : Store).prefetch_related "n" (Store.init false)
        (objectsAll "M") none none).only_list = none ∧
    (∀ s2, ({ Store.init false with only_list := none } : Store).select_related "n"
        (Store.init false) none none = .ok s2 → s2.only_list = none) ∧
    ((optimizeFieldByHints { Store.init false with only_list := none } none).1).only_list = none :=
  C8_abort_irreversible { Store.init false with only_list := none }
    (Store.init false) "f" "n" (objectsAll "M") none none none none rfl

end GDPO
